import Mathlib

/-!
Verification of the `prompt-scaler` work-processing core.

This file gives a shallow embedding, in Lean 4, of the data model and the
operations of the `prompt-scaler` repository (Rust), and proves properties
of that embedding.  Each definition is translated from the corresponding
Rust source item (named in its doc comment); JSON values and `anyhow`
errors are modelled as strings, machine integers as `Nat`, and monetary
amounts (`f64` in the source) as rationals.
-/

namespace PromptScaler

/-- JSON values are opaque to the work-processing core; we model them as
strings (their serialized form). -/
abbrev JsonValue := String

/-- Token usage, from `TokenUsage` in `src/queues/chat.rs` (also mirrored in
`src/drivers/mod.rs`): prompt and completion token counts. -/
structure TokenUsage where
  prompt_tokens : Nat
  completion_tokens : Nat
deriving DecidableEq, Repr

/-- From `TokenUsage::is_zero` in `src/queues/chat.rs`. -/
def TokenUsage.is_zero (u : TokenUsage) : Bool :=
  u.prompt_tokens == 0 && u.completion_tokens == 0

/-- From `impl AddAssign for TokenUsage` in `src/queues/chat.rs`. -/
def TokenUsage.add (u other : TokenUsage) : TokenUsage :=
  { prompt_tokens := u.prompt_tokens + other.prompt_tokens
    completion_tokens := u.completion_tokens + other.completion_tokens }

/-- Model billing info of `LiteLlmModel` (`src/llm_client.rs` /
`src/litellm.rs`): per-token costs, modelled as rationals instead of `f64`. -/
structure LiteLlmModel where
  input_cost_per_token : Rat
  output_cost_per_token : Rat

/-- From `TokenUsage::estimate_cost` in `src/queues/chat.rs`. -/
def TokenUsage.estimate_cost (u : TokenUsage) (model : Option LiteLlmModel) :
    Option Rat :=
  match model with
  | some m =>
    some ((u.prompt_tokens : Rat) * m.input_cost_per_token
      + (u.completion_tokens : Rat) * m.output_cost_per_token)
  | none => none

/-- Output status of a work item, from `WorkStatus` in `src/queues/work.rs`.
The Rust enum has exactly these three variants. -/
inductive WorkStatus where
  | ok
  | incomplete
  | failed
deriving DecidableEq, Repr

/-- Serde serialization of `WorkStatus` (`rename_all = "snake_case"`). -/
def workStatusWire : WorkStatus → String
  | .ok => "ok"
  | .incomplete => "incomplete"
  | .failed => "failed"

/-- All inhabitants of `WorkStatus`. -/
def allWorkStatuses : List WorkStatus := [.ok, .incomplete, .failed]

/-- Output record of a work item, from `WorkOutput<T>` in
`src/queues/work.rs`.  The opaque JSON `id` is modelled as a string. -/
structure WorkOutput (T : Type) where
  id : JsonValue
  status : WorkStatus
  estimated_cost : Option Rat
  token_usage : Option TokenUsage
  errors : List String
  data : T
deriving Repr

/-- Chat output payload, from `ChatOutput` in `src/queues/chat.rs`. -/
structure ChatOutput where
  response : Option JsonValue
deriving DecidableEq, Repr

/-!
Retry engine.  The retry ADT below follows `keen_retry`'s `ResolvedResult`
type as used by `src/retry.rs` and `src/queues/chat.rs`; `anyhow::Error`
values are modelled as the strings their debug rendering produces.
-/

/-- The `keen_retry::ResolvedResult` variants used by the code (the `input`
fields, always `()` here, are dropped). -/
inductive ResolvedResult (Output : Type) where
  | ok (output : Output)
  | fatal (error : String)
  | recovered (output : Output) (retry_errors : List String)
  | givenUp (retry_errors : List String) (fatal_error : String)
  | unrecoverable (retry_errors : List String) (fatal_error : String)
deriving Repr

/-- The `full_err` closure of `WorkOutput::from_resolved_result`
(`src/queues/chat.rs`): the debug rendering of an error.  Errors are already
modelled as their rendered strings, so this is the identity. -/
def full_err (e : String) : String := e

/-- `estimate_cost` closure of `WorkOutput::from_resolved_result`
(`src/queues/chat.rs`): `usage.and_then(|u| u.estimate_cost(model))`. -/
def estimateCostOf (model : Option LiteLlmModel) (usage : Option TokenUsage) :
    Option Rat :=
  usage.bind (fun u => u.estimate_cost model)

/-- `WorkOutput::<ChatOutput>::from_resolved_result` in `src/queues/chat.rs`
lines 84-153: map a resolved retry result to an output record. -/
def from_resolved_result (id : JsonValue) (model : Option LiteLlmModel)
    (result : ResolvedResult (Option TokenUsage × JsonValue)) :
    WorkOutput ChatOutput :=
  match result with
  | .ok (token_usage, response) =>
    { id
      status := .ok
      errors := []
      estimated_cost := estimateCostOf model token_usage
      token_usage
      data := { response := some response } }
  | .fatal error =>
    { id
      status := .failed
      errors := [full_err error]
      estimated_cost := none
      token_usage := none
      data := { response := none } }
  | .recovered (token_usage, response) retry_errors =>
    { id
      status := .ok
      errors := retry_errors.map full_err
      estimated_cost := estimateCostOf model token_usage
      token_usage
      data := { response := some response } }
  | .givenUp retry_errors fatal_error =>
    { id
      status := .failed
      errors := retry_errors.map full_err ++ [full_err fatal_error]
      estimated_cost := none
      token_usage := none
      data := { response := none } }
  | .unrecoverable retry_errors fatal_error =>
    { id
      status := .failed
      errors := retry_errors.map full_err ++ [full_err fatal_error]
      estimated_cost := none
      token_usage := none
      data := { response := none } }

/-- Outcome of one attempt of the retried operation, i.e. one
`keen_retry::RetryResult` value as produced by `run_chat_inner`
(`src/queues/chat.rs`). -/
inductive Attempt (Output : Type) where
  | ok (v : Output)
  | transient (e : String)
  | fatal (e : String)
deriving Repr

/-- `re_attempts` of the exponential-jitter configuration used both by
`DEFAULT_JITTER` (`src/retry.rs` lines 14-18) and by the inline jitter in
`run_chat` (`src/queues/chat.rs` lines 398-402). -/
def RE_ATTEMPTS : Nat := 5

/-- Modelled from the spec: the retry loop of the `keen_retry` dependency
(driven by `retry_with_async` + `with_exponential_jitter` in `run_chat`,
`src/queues/chat.rs` lines 404-431; `keen_retry` itself is not part of this
repository).  After a first transient error, up to `budget` retries run:
a success yields `Recovered` with the accumulated transient history, a fatal
error yields `Unrecoverable`, and exhausting the budget yields `GivenUp`
carrying all prior transient errors plus the terminal one.  `prior` is the
history before the most recent transient error `last`; `attempts` scripts
the outcomes of the remaining retries (`none` if the script is too short,
which cannot happen for a real driver). -/
def retryLoop (prior : List String) (last : String) (budget : Nat)
    (attempts : List (Attempt Output)) : Option (ResolvedResult Output) :=
  match budget with
  | 0 => some (.givenUp prior last)
  | b + 1 =>
    match attempts with
    | [] => none
    | .ok v :: _ => some (.recovered v (prior ++ [last]))
    | .fatal e :: _ => some (.unrecoverable (prior ++ [last]) e)
    | .transient e :: rest => retryLoop (prior ++ [last]) e b rest

/-- Modelled from the spec: resolve a retried operation whose successive
attempt outcomes are scripted by `attempts`, with `re_attempts` retries
allowed after the initial attempt (see `retryLoop`). -/
def resolveWithRetries (re_attempts : Nat) (attempts : List (Attempt Output)) :
    Option (ResolvedResult Output) :=
  match attempts with
  | [] => none
  | .ok v :: _ => some (.ok v)
  | .fatal e :: _ => some (.fatal e)
  | .transient e :: rest => retryLoop [] e re_attempts rest

/-!
Transient-error classification, from `src/retry.rs`.
-/

/-- `impl IsKnownTransient for StatusCode` (`src/retry.rs` lines 211-221):
the status is transient iff it is in the fixed list
`[TOO_MANY_REQUESTS, BAD_GATEWAY, SERVICE_UNAVAILABLE, GATEWAY_TIMEOUT]`,
i.e. `[429, 502, 503, 504]`. -/
def statusCode_is_known_transient (s : Nat) : Bool :=
  [429, 502, 503, 504].contains s

/-- `impl IsKnownTransient for reqwest::Error` (`src/retry.rs` lines
197-209): if the error carries a status code, classify by the status;
otherwise treat the error as transient. -/
def reqwestError_is_known_transient (status : Option Nat) : Bool :=
  match status with
  | some s => statusCode_is_known_transient s
  | none => true

/-- Stated from the claim's words, for comparison with the code: membership
in the "HTTP 408/429/500-504 family". -/
def claimedTransientFamily (s : Nat) : Bool :=
  s == 408 || s == 429 || (500 ≤ s && s ≤ 504)

/-- Chat input record, from `ChatInput` in `src/queues/chat.rs` lines 67-74:
it consists only of the flattened `template_bindings` under the caller's
control; the Rust struct has no `skip_processing` field. -/
structure ChatInput where
  template_bindings : List (String × JsonValue)

/-- `run_chat` (`src/queues/chat.rs` lines 333-438), abstracted over the two
effects it performs: `renderResult` is the outcome of
`ChatPrompt::render_prompt` on this input's bindings, and `attempts` scripts
the successive outcomes of `run_chat_inner` consumed by the retry loop.
The control flow is translated from the source: a render error fails the
whole item; otherwise the retry loop runs and its resolved result is mapped
by `from_resolved_result`.  The function inspects nothing else of the input
record — in particular there is no skip branch. -/
def run_chat (id_ : JsonValue) (input : ChatInput)
    (model : Option LiteLlmModel) (renderResult : Except String Unit)
    (attempts : List (Attempt (Option TokenUsage × JsonValue))) :
    Except String (WorkOutput ChatOutput) :=
  match input, renderResult with
  | _, .error e => .error ("Error rendering prompt: " ++ e)
  | _, .ok _ =>
    match resolveWithRetries RE_ATTEMPTS attempts with
    | none => .error "driver response script exhausted"
    | some r => .ok (from_resolved_result id_ model r)

/-- Counters kept while serializing outputs, from `WorkOutputCounters` in
`src/queues/work.rs` lines 161-178 (the `f64` cost as a rational). -/
structure WorkOutputCounters where
  total_record_count : Nat
  failure_count : Nat
  non_fatal_error_count : Nat
  cost_estimate : Rat
  token_usage : TokenUsage

/-- The `Default` value of `WorkOutputCounters`. -/
def initialCounters : WorkOutputCounters :=
  { total_record_count := 0
    failure_count := 0
    non_fatal_error_count := 0
    cost_estimate := 0
    token_usage := { prompt_tokens := 0, completion_tokens := 0 } }

/-- `WorkItemCounterExt::update` (`src/queues/work.rs` lines 213-228):
always bump the total; bump the failure count when the status is not `Ok`,
else accumulate the item's errors as non-fatal; accumulate cost and token
usage when present. -/
def countersUpdate {T : Type} (c : WorkOutputCounters) (item : WorkOutput T) :
    WorkOutputCounters :=
  let c1 := { c with total_record_count := c.total_record_count + 1 }
  let c2 :=
    if item.status ≠ .ok then
      { c1 with failure_count := c1.failure_count + 1 }
    else if !item.errors.isEmpty then
      { c1 with non_fatal_error_count :=
          c1.non_fatal_error_count + item.errors.length }
    else c1
  let c3 :=
    match item.estimated_cost with
    | some cost => { c2 with cost_estimate := c2.cost_estimate + cost }
    | none => c2
  match item.token_usage with
  | some tu => { c3 with token_usage := c3.token_usage.add tu }
  | none => c3

/-- Stream options relevant to the guard, from `StreamOpts` in
`src/cmd/mod.rs` (the `allowed_failure_rate` field, an `f32` in the source,
modelled as a rational). -/
structure StreamOpts where
  allowed_failure_rate : Rat

/-- Is this result an error? -/
def exceptIsError {E A : Type} : Except E A → Bool
  | .error _ => true
  | .ok _ => false

/-- `WorkItemCounterExt::finish` (`src/queues/work.rs` lines 230-277):
emit the token/cost summaries, then fail iff the observed failure rate
exceeds the allowed one, otherwise emit the non-fatal-error and failure
summaries and succeed.  UI messages are modelled as a list of
(tag, text) pairs; the `f32` rate arithmetic is modelled exactly over the
rationals (its percentage formatting is not modelled). -/
def counters_finish (c : WorkOutputCounters) (opts : StreamOpts) :
    List (String × String) × Except String Unit :=
  let msgs1 : List (String × String) :=
    if !c.token_usage.is_zero then
      [("tokens", toString c.token_usage.prompt_tokens
          ++ " input tokens and " ++ toString c.token_usage.completion_tokens
          ++ " output tokens used")]
    else []
  let msgs2 :=
    if c.cost_estimate > 0 then
      msgs1 ++ [("cost", "Estimated cost: US$" ++ toString c.cost_estimate)]
    else msgs1
  let failure_rate : Rat :=
    (c.failure_count : Rat) / (c.total_record_count : Rat)
  if failure_rate > opts.allowed_failure_rate then
    (msgs2, .error (toString c.failure_count ++ "/"
      ++ toString c.total_record_count
      ++ " of outputs were failures, but only a rate of "
      ++ toString opts.allowed_failure_rate ++ " was allowed"))
  else
    let msgs3 :=
      if c.non_fatal_error_count > 0 then
        msgs2 ++ [("warnings", toString c.non_fatal_error_count
          ++ " non-fatal errors encountered")]
      else msgs2
    let msgs4 :=
      if c.failure_count > 0 then
        msgs3 ++ [("failures", toString c.failure_count
          ++ " records could not be processed")]
      else msgs3
    (msgs4, .ok ())

/-- Is this result a success? -/
def exceptIsOk {E A : Type} : Except E A → Bool
  | .ok _ => true
  | .error _ => false

/-- Image provenance, from `ImageSource` in `src/queues/ocr/mod.rs` lines
117-143.  The derived Rust ordering is declaration order:
`PhotoOrVideo < Scan < Digital`. -/
inductive ImageSource where
  | photoOrVideo
  | scan
  | digital
deriving DecidableEq, Repr

/-- Declaration-order rank of an `ImageSource`, realizing the derived
`PartialOrd`/`Ord` instances. -/
def ImageSource.rank : ImageSource → Nat
  | .photoOrVideo => 0
  | .scan => 1
  | .digital => 2

/-- `ImageSource::merge` (`src/queues/ocr/mod.rs` lines 145-150): take the
worst (smallest) of the two sources. -/
def ImageSource.merge (a other : ImageSource) : ImageSource :=
  if a.rank < other.rank then a else other

/-- Page-defect flags, from `OcrAnalysis` in `src/queues/ocr/mod.rs` lines
152-183. -/
structure OcrAnalysis where
  image_source : ImageSource
  contains_handwriting : Bool
  contains_unreadable_or_ambiguous_text : Bool
  background_is_noisy : Bool
  contains_faint_text : Bool
  contains_blurred_text : Bool
  contains_distorted_text : Bool
  contains_cutoff_text : Bool
  glare_on_some_text : Bool
deriving DecidableEq, Repr

/-- The `Default` value of `OcrAnalysis` (`ImageSource` defaults to
`Digital`). -/
def OcrAnalysis.default : OcrAnalysis :=
  { image_source := .digital
    contains_handwriting := false
    contains_unreadable_or_ambiguous_text := false
    background_is_noisy := false
    contains_faint_text := false
    contains_blurred_text := false
    contains_distorted_text := false
    contains_cutoff_text := false
    glare_on_some_text := false }

/-- `OcrAnalysis::merge` (`src/queues/ocr/mod.rs` lines 185-204): OR all
flags, take the worst image source. -/
def OcrAnalysis.merge (a other : OcrAnalysis) : OcrAnalysis :=
  { image_source := a.image_source.merge other.image_source
    contains_handwriting := a.contains_handwriting || other.contains_handwriting
    contains_unreadable_or_ambiguous_text :=
      a.contains_unreadable_or_ambiguous_text
        || other.contains_unreadable_or_ambiguous_text
    background_is_noisy := a.background_is_noisy || other.background_is_noisy
    contains_faint_text := a.contains_faint_text || other.contains_faint_text
    contains_blurred_text := a.contains_blurred_text || other.contains_blurred_text
    contains_distorted_text :=
      a.contains_distorted_text || other.contains_distorted_text
    contains_cutoff_text := a.contains_cutoff_text || other.contains_cutoff_text
    glare_on_some_text := a.glare_on_some_text || other.glare_on_some_text }

/-- OCR output payload, from `OcrOutput` in `src/queues/ocr/mod.rs` lines
44-58. -/
structure OcrOutput where
  path : String
  text : Option String
  analysis : Option OcrAnalysis
deriving DecidableEq, Repr

/-- Per-page OCR result, from `OcrPageOutput` in
`src/queues/ocr/engines/mod.rs` lines 32-48 (the `f64` cost as a
rational). -/
structure OcrPageOutput where
  text : Option String
  errors : List String
  analysis : Option OcrAnalysis
  estimated_cost : Option Rat
  token_usage : Option TokenUsage

/-- The page-failure marker of `src/queues/ocr/mod.rs` line 370. -/
def COULD_NOT_OCR_PAGE : String := "**COULD_NOT_OCR_PAGE**"

/-- Accumulator of the aggregation loop of `ocr_file_inner`
(`src/queues/ocr/mod.rs` lines 336-361): its local mutable variables. -/
structure OcrAccum where
  errors : List String
  pages : List (Option String)
  analysis : OcrAnalysis
  analysis_present : Bool
  estimated_cost : Rat
  token_usage : TokenUsage

/-- One iteration of the `for page_output in page_outputs` loop of
`ocr_file_inner` (`src/queues/ocr/mod.rs` lines 343-361): extend the error
list; when the page has text, record it and accumulate analysis, cost and
token usage; otherwise record a missing page. -/
def ocrAccumStep (acc : OcrAccum) (page_output : OcrPageOutput) : OcrAccum :=
  let acc := { acc with errors := acc.errors ++ page_output.errors }
  match page_output.text with
  | some text =>
    let acc := { acc with pages := acc.pages ++ [some text] }
    let acc :=
      match page_output.analysis with
      | some a => { acc with analysis := acc.analysis.merge a
                             analysis_present := true }
      | none => acc
    let acc :=
      match page_output.estimated_cost with
      | some cost => { acc with estimated_cost := acc.estimated_cost + cost }
      | none => acc
    match page_output.token_usage with
    | some usage => { acc with token_usage := acc.token_usage.add usage }
    | none => acc
  | none => { acc with pages := acc.pages ++ [none] }

/-- `ocr_file_inner` (`src/queues/ocr/mod.rs` lines 289-408), abstracted
over the effects preceding the aggregation: `warnings` are the page
iterator's warnings, `check_complete_result` is `page_iter.check_complete()`,
`analysis_env_set` is whether `EXPERIMENTAL_OCR_ANALYSIS` is set, and
`page_outputs` are the per-page engine results collected from the page
stream (an early fatal page error would have aborted before this point). -/
def ocr_file_inner (id_ : JsonValue) (path : String) (warnings : List String)
    (check_complete_result : Except String Unit) (analysis_env_set : Bool)
    (page_outputs : List OcrPageOutput) : WorkOutput OcrOutput :=
  let acc0 : OcrAccum :=
    { errors := warnings
      pages := []
      analysis := OcrAnalysis.default
      analysis_present := false
      estimated_cost := 0
      token_usage := { prompt_tokens := 0, completion_tokens := 0 } }
  let acc := page_outputs.foldl ocrAccumStep acc0
  let errors :=
    match check_complete_result with
    | .error err => acc.errors ++ [err]
    | .ok _ => acc.errors
  let good_page_count := (acc.pages.filter (fun p => p.isSome)).length
  let total_page_count := acc.pages.length
  let text := String.intercalate "\n\n"
    (acc.pages.map (fun p => p.getD COULD_NOT_OCR_PAGE))
  { id := id_
    status :=
      if exceptIsOk check_complete_result = true
          ∧ good_page_count = total_page_count then
        .ok
      else if good_page_count > 0 then
        .incomplete
      else
        .failed
    errors := errors
    estimated_cost :=
      if acc.estimated_cost > 0 then some acc.estimated_cost else none
    token_usage :=
      if acc.token_usage.is_zero then none else some acc.token_usage
    data :=
      { path := path
        text := if good_page_count > 0 then some text else none
        analysis :=
          if acc.analysis_present && analysis_env_set then some acc.analysis
          else none } }

/-- The per-page texts of a list of page outputs. -/
def pageTexts (pages : List OcrPageOutput) : List (Option String) :=
  pages.map (fun p => p.text)

/-- The number of pages of a document that OCRed successfully. -/
def goodPageCount (pages : List OcrPageOutput) : Nat :=
  ((pageTexts pages).filter (fun p => p.isSome)).length

/-- The page texts joined with the separator, failed pages replaced by the
`COULD_NOT_OCR_PAGE` marker. -/
def joinedPageText (pages : List OcrPageOutput) : String :=
  String.intercalate "\n\n"
    ((pageTexts pages).map (fun p => p.getD COULD_NOT_OCR_PAGE))

/-!
TIFF SubIFD validation and page iteration, from `src/page_iter.rs`.
-/

/-- `tiff_subfile_type::REDUCED_RESOLUTION` (`src/page_iter.rs` line 514). -/
def REDUCED_RESOLUTION : Nat := 1

/-- `tiff_subfile_type::SINGLE_PAGE` (`src/page_iter.rs` line 516). -/
def SINGLE_PAGE : Nat := 2

/-- `tiff_subfile_type::TRANSPARENCY_MASK` (`src/page_iter.rs` line 518). -/
def TRANSPARENCY_MASK : Nat := 4

/-- `tiff_subfile_type::DNG_BITS` (`src/page_iter.rs` line 520):
`0x8 | 0x10 | 0x10000`. -/
def DNG_BITS : Nat := 8 ||| 16 ||| 65536

/-- The ambiguous-SubIFD error of `validate_subifds`
(`src/page_iter.rs` lines 710-721), naming the file, the IFD index, the
SubIFD index and the `NewSubfileType` value. -/
def mkAmbiguousMsg (path : String) (ifd_index sub_idx subfile_type : Nat) :
    String :=
  "TIFF file " ++ path ++ " has ambiguous SubIFD content in IFD "
    ++ toString ifd_index ++ " (SubIFD " ++ toString sub_idx
    ++ ", NewSubfileType=" ++ toString subfile_type
    ++ "). This SubIFD may contain document pages that would be silently "
    ++ "dropped. To avoid missing data, please convert this TIFF to PDF or "
    ++ "individual images using an appropriate tool before processing."

/-- One iteration of the SubIFD loop of `validate_subifds`
(`src/page_iter.rs` lines 655-722).  A SubIFD is modelled by an
`Option Nat`: `none` when `read_directory` fails (a warning is recorded and
the entry skipped), `some t` for its `NewSubfileType` value as returned by
`get_new_subfile_type` (which defaults a missing or unreadable tag to 0).
Safe bits are checked first; then a value that is zero or carries the
single-page bit is a fatal error; any other value falls through without
error. -/
def validateEntry (path : String) (ifd_index sub_idx : Nat)
    (entry : Option Nat) (warnings : List String) :
    Except String (List String) :=
  match entry with
  | none =>
    .ok (warnings ++ ["Could not read SubIFD " ++ toString sub_idx
      ++ " of IFD " ++ toString ifd_index])
  | some subfile_type =>
    if subfile_type &&& REDUCED_RESOLUTION ≠ 0 then .ok warnings
    else if subfile_type &&& TRANSPARENCY_MASK ≠ 0 then .ok warnings
    else if subfile_type &&& DNG_BITS ≠ 0 then .ok warnings
    else if subfile_type = 0 ∨ subfile_type &&& SINGLE_PAGE ≠ 0 then
      .error (mkAmbiguousMsg path ifd_index sub_idx subfile_type)
    else .ok warnings

/-- The SubIFD loop of `validate_subifds` (`src/page_iter.rs` lines
630-725): validate every SubIFD of one IFD in order, accumulating warnings,
stopping at the first ambiguous entry. -/
def validate_subifds_loop (path : String) (ifd_index : Nat)
    (subifds : List (Option Nat)) (sub_idx : Nat) (warnings : List String) :
    Except String (List String) :=
  match subifds with
  | [] => .ok warnings
  | entry :: rest =>
    match validateEntry path ifd_index sub_idx entry warnings with
    | .error e => .error e
    | .ok w2 => validate_subifds_loop path ifd_index rest (sub_idx + 1) w2

/-- `validate_subifds` (`src/page_iter.rs` lines 630-725). -/
def validate_subifds (path : String) (ifd_index : Nat)
    (subifds : List (Option Nat)) (warnings : List String) :
    Except String (List String) :=
  validate_subifds_loop path ifd_index subifds 0 warnings

/-- One main IFD of a TIFF file as seen by `process_tiff_sync`: its SubIFDs
(see `validateEntry`) and the PNG page artifact written for it (decoding and
encoding, which happen after validation, are modelled as always
succeeding). -/
structure TiffIfd where
  subifds : List (Option Nat)
  page : String

/-- The `max_pages` break test at the top of the `process_tiff_sync` loop
(`src/page_iter.rs` lines 551-555). -/
def tiffShouldStop (max_pages : Option Nat) (page_count : Nat) : Bool :=
  match max_pages with
  | some m => page_count ≥ m
  | none => false

/-- The main loop of `process_tiff_sync` (`src/page_iter.rs` lines 550-619)
plus the trailing total-page count: process IFDs in order until the
`max_pages` limit, validating each IFD's SubIFDs before decoding it; on the
break, the remaining IFDs are still counted into `total_pages`.  Returns
(written pages, total page count, warnings). -/
def process_tiff_loop (path : String) (max_pages : Option Nat)
    (ifds : List TiffIfd) (page_count ifd_index : Nat)
    (pages warnings : List String) :
    Except String (List String × Nat × List String) :=
  match ifds with
  | [] => .ok (pages, page_count, warnings)
  | ifd :: rest =>
    if tiffShouldStop max_pages page_count then
      .ok (pages, page_count + (ifd :: rest).length, warnings)
    else
      match validate_subifds path ifd_index ifd.subifds warnings with
      | .error e => .error e
      | .ok w2 =>
        process_tiff_loop path max_pages rest (page_count + 1) (ifd_index + 1)
          (pages ++ [ifd.page]) w2

/-- `process_tiff_sync` (`src/page_iter.rs` lines 535-620). -/
def process_tiff_sync (path : String) (max_pages : Option Nat)
    (ifds : List TiffIfd) :
    Except String (List String × Nat × List String) :=
  process_tiff_loop path max_pages ifds 0 0 [] []

/-- Options for constructing a `PageIter`, from `PageIterOptions`
(`src/page_iter.rs` lines 71-86). -/
structure PageIterOptions where
  rasterize : Bool
  rasterize_dpi : Nat
  max_pages : Option Nat

/-- The fields of `PageIter` (`src/page_iter.rs` lines 90-106).  The
optional owned temporary directory is modelled by the flag `has_tmpdir`;
`dir_iter` is the remaining ordered sequence of per-page artifact paths. -/
structure PageIterState where
  has_tmpdir : Bool
  mime_type : String
  dir_iter : List String
  total_pages : Nat
  max_pages : Option Nat
  warnings : List String
deriving DecidableEq, Repr

/-- A page, from `Page` (`src/page_iter.rs` lines 54-61). -/
structure Page where
  mime_type : String
  data : List Nat
deriving DecidableEq, Repr

/-- `SUPPORTED_IMAGE_TYPES` (`src/page_iter.rs` lines 34-35). -/
def SUPPORTED_IMAGE_TYPES : List String :=
  ["image/png", "image/jpeg", "image/webp", "image/gif"]

/-- A file system snapshot: path to file contents. -/
def FileSys : Type := String → Option (List Nat)

/-- The single-image branch of `PageIter::from_path` (`src/page_iter.rs`
lines 123-132): no temporary directory, a one-element iterator over the
original input path, one total page, no warnings. -/
def from_path_single_image (path mime : String) (opts : PageIterOptions) :
    PageIterState :=
  { has_tmpdir := false
    mime_type := mime
    dir_iter := [path]
    total_pages := 1
    max_pages := opts.max_pages
    warnings := [] }

/-- `PageIter::from_tiff` (`src/page_iter.rs` lines 324-366): run the
synchronous TIFF processing and wrap the written pages into an iterator
owning the temporary directory (the written PNG names sort in creation
order). -/
def from_tiff (path : String) (opts : PageIterOptions)
    (ifds : List TiffIfd) : Except String PageIterState :=
  match process_tiff_sync path opts.max_pages ifds with
  | .error e => .error e
  | .ok (pages, total_pages, warnings) =>
    .ok { has_tmpdir := true
          mime_type := "image/png"
          dir_iter := pages
          total_pages := total_pages
          max_pages := opts.max_pages
          warnings := warnings }

/-- The MIME dispatch of `PageIter::from_path` (`src/page_iter.rs` lines
114-150).  The two PDF branches shell out to external commands; their
outcome is abstracted as the parameter `pdf_result`. -/
def from_path (path mime : String) (opts : PageIterOptions)
    (tiff_ifds : List TiffIfd)
    (pdf_result : Except String PageIterState) :
    Except String PageIterState :=
  if SUPPORTED_IMAGE_TYPES.contains mime then
    .ok (from_path_single_image path mime opts)
  else if mime = "image/tiff" then
    from_tiff path opts tiff_ifds
  else if mime = "application/pdf" then
    pdf_result
  else
    .error ("unsupported MIME type " ++ mime
      ++ " (supported: PNG, JPEG, WebP, GIF, TIFF, PDF)")

/-- `PageIter::is_incomplete` (`src/page_iter.rs` lines 374-380). -/
def PageIterState.is_incomplete (st : PageIterState) : Bool :=
  match st.max_pages with
  | some m => st.total_pages > m
  | none => false

/-- `PageIter::check_complete` (`src/page_iter.rs` lines 383-393). -/
def PageIterState.check_complete (st : PageIterState) : Except String Unit :=
  if st.is_incomplete then
    .error ("Only " ++ toString (st.max_pages.getD 0) ++ "/"
      ++ toString st.total_pages
      ++ " pages processed (because of --max-pages)")
  else .ok ()

/-- `<PageIter as Iterator>::next` (`src/page_iter.rs` lines 415-443):
take the next artifact path, read the file, then delete it — but only when
the iterator owns a temporary directory — and yield the bytes with the
iterator's MIME type.  Returns the yielded item, the advanced iterator and
the resulting file system. -/
def page_iter_next (fs : FileSys) (st : PageIterState) :
    Option (Except String Page) × PageIterState × FileSys :=
  match st.dir_iter with
  | [] => (none, st, fs)
  | path :: rest =>
    let st2 := { st with dir_iter := rest }
    match fs path with
    | none => (some (.error ("failed to read file " ++ path)), st2, fs)
    | some bytes =>
      if st.has_tmpdir then
        (some (.ok { mime_type := st.mime_type, data := bytes }), st2,
          fun p => if p = path then none else fs p)
      else
        (some (.ok { mime_type := st.mime_type, data := bytes }), st2, fs)

/-!
Work-queue backpressure, from `WorkQueue::new` (`src/queues/work.rs` lines
443-464): a bounded mpsc channel of capacity `N` feeds a worker pool running
at most `N` items concurrently (`for_each_concurrent`).  The channel and
pool are modelled as a transition system over abstract counts.
-/

/-- A snapshot of a work queue: items not yet submitted, items queued in the
channel, items being processed, items completed. -/
structure QueueState where
  pending : Nat
  queued : Nat
  in_flight : Nat
  completed : Nat
deriving DecidableEq, Repr

/-- The transitions of the work queue with concurrency limit `N`: a
producer may submit only while the channel holds fewer than `N` items
(`mpsc::channel(concurrency_limit)`); the worker may start an item only
while fewer than `N` are in flight (`for_each_concurrent(concurrency_limit)`);
a finished item leaves the pool. -/
inductive QueueStep (N : Nat) : QueueState → QueueState → Prop where
  | submit (p q f c : Nat) :
      q < N → QueueStep N ⟨p + 1, q, f, c⟩ ⟨p, q + 1, f, c⟩
  | start (p q f c : Nat) :
      f < N → QueueStep N ⟨p, q + 1, f, c⟩ ⟨p, q, f + 1, c⟩
  | finish (p q f c : Nat) :
      QueueStep N ⟨p, q, f + 1, c⟩ ⟨p, q, f, c + 1⟩

/-- States reachable from an initial input of `M` pending items. -/
inductive QueueReachable (N M : Nat) : QueueState → Prop where
  | init : QueueReachable N M ⟨M, 0, 0, 0⟩
  | step {s t : QueueState} :
      QueueReachable N M s → QueueStep N s t → QueueReachable N M t

/-!
Chat attempt events, from `run_chat_inner` (`src/queues/chat.rs` lines
442-526).
-/

/-- Observable events of one `run_chat_inner` attempt. -/
inductive ChatEvent where
  | attemptIncrement
  | driverCall
  | rateLimitAcquire
deriving DecidableEq, Repr

/-- The scripted outcome of the driver call (and the subsequent local
checks) made by one `run_chat_inner` attempt: a transport-level error
(classified transient or fatal by `is_known_openai_transient`, which lives
outside this snapshot), the `tokio::time::timeout` elapse, a response whose
envelope fails to parse, or a parsed response with its relevant flags. -/
inductive DriverOutcome where
  | err (is_transient : Bool)
  | timeout
  | badResponseJson
  | response (has_choices content_filter : Bool) (content : JsonValue)
      (content_is_json schema_valid : Bool) (usage : Option TokenUsage)

/-- `run_chat_inner` (`src/queues/chat.rs` lines 442-526): increment the
attempt counter, call the driver (wrapped in the optional timeout), then
parse the envelope, take the first choice, reject content-filter finishes,
parse the content as JSON (transient on failure) and validate it against
the schema (transient on failure).  The returned event list records, in
order, the observable actions the attempt performs: the body contains no
rate-limiter acquisition. -/
def run_chat_inner (outcome : DriverOutcome) :
    Attempt (Option TokenUsage × JsonValue) × List ChatEvent :=
  let events := [ChatEvent.attemptIncrement, ChatEvent.driverCall]
  match outcome with
  | .err t =>
    (if t then .transient "OpenAI error" else .fatal "OpenAI error", events)
  | .timeout => (.transient "LLM request timed out", events)
  | .badResponseJson => (.fatal "Error parsing OpenAI response", events)
  | .response has_choices content_filter content content_is_json schema_valid
      usage =>
    if !has_choices then
      (.fatal "No choices in OpenAI response", events)
    else if content_filter then
      (.fatal "Content filter triggered", events)
    else if !content_is_json then
      (.transient ("Error parsing OpenAI response content: " ++ content),
        events)
    else if !schema_valid then
      (.transient ("Failed to validate " ++ content), events)
    else
      (.ok (usage, content), events)

/-- Stated from the source's branch conditions: a `NewSubfileType` value is
ambiguous (triggers the fatal error) iff it carries none of the safe bits
and is zero or carries the single-page bit. -/
def ambiguousSubfileType (t : Nat) : Bool :=
  decide (t &&& REDUCED_RESOLUTION = 0 ∧ t &&& TRANSPARENCY_MASK = 0
    ∧ t &&& DNG_BITS = 0 ∧ (t = 0 ∨ t &&& SINGLE_PAGE ≠ 0))

/-- The retry-accounting property of claim C1, as a predicate over the
inputs: the four `from_resolved_result` mapping facts, and the resolutions
of a run with transient errors followed by a success, a run of six transient
errors, and a run of transient errors ended by a fatal error. -/
def RetryAccountingSpec (id_ : JsonValue) (model : Option LiteLlmModel)
    (tu : Option TokenUsage) (v : JsonValue) (rerrs es es5 : List String)
    (e e6 : String) : Prop :=
  ((from_resolved_result id_ model (.ok (tu, v))).status = .ok
    ∧ (from_resolved_result id_ model (.ok (tu, v))).errors = [])
  ∧ ((from_resolved_result id_ model (.recovered (tu, v) rerrs)).status = .ok
    ∧ (from_resolved_result id_ model (.recovered (tu, v) rerrs)).errors = rerrs)
  ∧ ((from_resolved_result id_ model (.fatal e)).status = .failed
    ∧ (from_resolved_result id_ model (.fatal e)).errors = [e])
  ∧ ((from_resolved_result id_ model (.givenUp rerrs e)).status = .failed
    ∧ (from_resolved_result id_ model (.givenUp rerrs e)).errors = rerrs ++ [e])
  ∧ (∃ r, resolveWithRetries RE_ATTEMPTS (es.map .transient ++ [.ok (tu, v)]) = some r
    ∧ (from_resolved_result id_ model r).status = .ok
    ∧ (from_resolved_result id_ model r).errors.length = es.length)
  ∧ (∃ r, resolveWithRetries RE_ATTEMPTS ((es5 ++ [e6]).map .transient) = some r
    ∧ (from_resolved_result id_ model r).status = .failed
    ∧ (from_resolved_result id_ model r).errors.length = 6)
  ∧ (∃ r, resolveWithRetries RE_ATTEMPTS (es5.map .transient ++ [.fatal e6]) = some r
    ∧ (from_resolved_result id_ model r).status = .failed
    ∧ (from_resolved_result id_ model r).errors.length = 6)

/-!
Theorems.
-/

theorem allWorkStatuses_complete (s : WorkStatus) : s ∈ allWorkStatuses := by
  cases s <;> simp [allWorkStatuses]

theorem map_full_err (l : List String) : l.map full_err = l := by
  show l.map id = l
  exact List.map_id l

theorem retryLoop_step_transient {Output : Type} (prior : List String)
    (last e : String) (b : Nat) (rest : List (Attempt Output)) :
    retryLoop prior last (b + 1) (.transient e :: rest)
      = retryLoop (prior ++ [last]) e b rest := rfl

theorem retryLoop_step_ok {Output : Type} (prior : List String)
    (last : String) (b : Nat) (v : Output) (rest : List (Attempt Output)) :
    retryLoop prior last (b + 1) (.ok v :: rest)
      = some (.recovered v (prior ++ [last])) := rfl

theorem retryLoop_step_fatal {Output : Type} (prior : List String)
    (last f : String) (b : Nat) (rest : List (Attempt Output)) :
    retryLoop prior last (b + 1) (.fatal f :: rest)
      = some (.unrecoverable (prior ++ [last]) f) := rfl

theorem retryLoop_budget_exhausted {Output : Type} (prior : List String)
    (last : String) (attempts : List (Attempt Output)) :
    retryLoop prior last 0 attempts = some (.givenUp prior last) := rfl

theorem retryLoop_transients_then_ok {Output : Type} (v : Output)
    (tail : List (Attempt Output)) (es : List String) :
    ∀ (prior : List String) (last : String) (b : Nat), es.length < b →
      retryLoop prior last b (es.map .transient ++ (.ok v :: tail))
        = some (.recovered v (prior ++ last :: es)) := by
  induction es with
  | nil =>
    intro prior last b hb
    match b with
    | b + 1 => rw [List.map_nil, List.nil_append, retryLoop_step_ok]
  | cons e es ih =>
    intro prior last b hb
    match b with
    | b + 1 =>
      rw [List.map_cons, List.cons_append, retryLoop_step_transient,
        ih (prior ++ [last]) e b (by simpa using hb)]
      simp

theorem retryLoop_transients_then_fatal {Output : Type}
    (tail : List (Attempt Output)) (f : String) (es : List String) :
    ∀ (prior : List String) (last : String) (b : Nat), es.length < b →
      retryLoop prior last b (es.map .transient ++ (.fatal f :: tail))
        = some (.unrecoverable (prior ++ last :: es) f) := by
  induction es with
  | nil =>
    intro prior last b hb
    match b with
    | b + 1 => rw [List.map_nil, List.nil_append, retryLoop_step_fatal]
  | cons e es ih =>
    intro prior last b hb
    match b with
    | b + 1 =>
      rw [List.map_cons, List.cons_append, retryLoop_step_transient,
        ih (prior ++ [last]) e b (by simpa using hb)]
      simp

theorem retryLoop_all_transients {Output : Type} (final : String)
    (es : List String) :
    ∀ (prior : List String) (last : String) (b : Nat), b = es.length + 1 →
      retryLoop prior last b ((es ++ [final]).map (@Attempt.transient Output))
        = some (.givenUp (prior ++ last :: es) final) := by
  induction es with
  | nil =>
    intro prior last b hb
    subst hb
    simp only [List.nil_append, List.map_cons, List.map_nil, List.length_nil]
    rw [retryLoop_step_transient, retryLoop_budget_exhausted]
  | cons e es ih =>
    intro prior last b hb
    subst hb
    simp only [List.cons_append, List.map_cons, List.length_cons]
    rw [retryLoop_step_transient, ih (prior ++ [last]) e (es.length + 1) rfl]
    simp

/-- Claim C1: the resolved retry result is mapped to the output record as
`Ok` to `status=Ok` with no errors, `Recovered` to `status=Ok` with the
transient history, `Fatal` to `status=Failed` with the single fatal error,
and `GivenUp` to `status=Failed` with history plus terminal error; with
`re_attempts = 5`, `k ≤ 5` transient attempts followed by a success give
`status=Ok` with `k` errors, and five transient attempts followed by a sixth
transient (or terminal) error give `status=Failed` with six errors. -/
theorem retry_provenance_mapping (id_ : JsonValue) (model : Option LiteLlmModel)
    (tu : Option TokenUsage) (v : JsonValue) (rerrs es es5 : List String)
    (e e6 : String) (hk : es.length ≤ RE_ATTEMPTS)
    (h5 : es5.length = RE_ATTEMPTS) :
    RetryAccountingSpec id_ model tu v rerrs es es5 e e6 := by
  refine ⟨⟨rfl, rfl⟩, ⟨rfl, by simp [from_resolved_result, map_full_err]⟩,
    ⟨rfl, rfl⟩, ⟨rfl, by simp [from_resolved_result, map_full_err, full_err]⟩,
    ?_, ?_, ?_⟩
  · match es with
    | [] => exact ⟨.ok (tu, v), rfl, rfl, rfl⟩
    | eh :: et =>
      refine ⟨.recovered (tu, v) (eh :: et), ?_, rfl, ?_⟩
      · show retryLoop [] eh RE_ATTEMPTS (et.map .transient ++ [.ok (tu, v)])
          = some (.recovered (tu, v) (eh :: et))
        have := retryLoop_transients_then_ok (tu, v) [] et [] eh RE_ATTEMPTS
          (by simpa using hk)
        simpa using this
      · simp [from_resolved_result, map_full_err]
  · cases es5 with
    | nil => simp [RE_ATTEMPTS] at h5
    | cons eh et =>
      refine ⟨.givenUp (eh :: et) e6, ?_, rfl, ?_⟩
      · show retryLoop [] eh RE_ATTEMPTS ((et ++ [e6]).map .transient)
          = some (.givenUp (eh :: et) e6)
        have h5' : RE_ATTEMPTS = et.length + 1 := by
          simpa [RE_ATTEMPTS] using h5.symm
        have := @retryLoop_all_transients (Option TokenUsage × JsonValue)
          e6 et [] eh RE_ATTEMPTS h5'
        simpa using this
      · have hl : et.length = 4 := by simpa [RE_ATTEMPTS] using h5
        simp [from_resolved_result, map_full_err, full_err, hl]
  · cases es5 with
    | nil => simp [RE_ATTEMPTS] at h5
    | cons eh et =>
      refine ⟨.unrecoverable (eh :: et) e6, ?_, rfl, ?_⟩
      · show retryLoop [] eh RE_ATTEMPTS (et.map .transient ++ [.fatal e6])
          = some (.unrecoverable (eh :: et) e6)
        have hlen : et.length < RE_ATTEMPTS := by
          simp [RE_ATTEMPTS] at h5 ⊢; omega
        have := @retryLoop_transients_then_fatal (Option TokenUsage × JsonValue)
          [] e6 et [] eh RE_ATTEMPTS hlen
        simpa using this
      · have hl : et.length = 4 := by simpa [RE_ATTEMPTS] using h5
        simp [from_resolved_result, map_full_err, full_err, hl]

/-- Witness for `retry_provenance_mapping` at concrete inputs. -/
theorem retry_provenance_mapping_witness :
    (["t1", "t2"] : List String).length ≤ RE_ATTEMPTS
    ∧ (["a", "b", "c", "d", "e"] : List String).length = RE_ATTEMPTS
    ∧ RetryAccountingSpec "id0" none none "resp" ["r1"] ["t1", "t2"]
        ["a", "b", "c", "d", "e"] "f" "f6" :=
  ⟨by decide, by decide,
    retry_provenance_mapping "id0" none none "resp" ["r1"] ["t1", "t2"]
      ["a", "b", "c", "d", "e"] "f" "f6" (by decide) (by decide)⟩

/-- Claim C3 (counterexample): HTTP 408 is in the claim's 408/429/500-504
family, yet the classifier returns `false` for it. -/
theorem transient_status_408_counterexample :
    statusCode_is_known_transient 408 = false
    ∧ claimedTransientFamily 408 = true := by decide

/-- Claim C3 (amended): the status-code classifier returns `true` exactly for
429 (Too Many Requests), 502 (Bad Gateway), 503 (Service Unavailable) and
504 (Gateway Timeout) — 408, 500 and 501 are not classified as transient —
and an HTTP error with no determined status code is always transient. -/
theorem transient_status_classifier (s t : Nat) :
    (statusCode_is_known_transient s = true
      ↔ s = 429 ∨ s = 502 ∨ s = 503 ∨ s = 504)
    ∧ reqwestError_is_known_transient none = true
    ∧ reqwestError_is_known_transient (some t) = statusCode_is_known_transient t := by
  refine ⟨?_, rfl, rfl⟩
  simp [statusCode_is_known_transient]

theorem from_resolved_result_status (id_ : JsonValue)
    (model : Option LiteLlmModel)
    (r : ResolvedResult (Option TokenUsage × JsonValue)) :
    (from_resolved_result id_ model r).status = .ok
      ∨ (from_resolved_result id_ model r).status = .failed := by
  cases r with
  | ok p => cases p; left; rfl
  | fatal e => right; rfl
  | recovered p es => cases p; left; rfl
  | givenUp es e => right; rfl
  | unrecoverable es e => right; rfl

/-- Claim C2 (counterexample): the wire status enumeration has exactly the
three values ok, incomplete, failed — there is no "skipped" — and an input
record carrying a `skip_processing` binding is processed through the normal
driver path, yielding status "ok" on a successful driver response rather
than a skipped output. -/
theorem work_status_wire_counterexample :
    allWorkStatuses.map workStatusWire = ["ok", "incomplete", "failed"]
    ∧ (allWorkStatuses.map workStatusWire).contains "skipped" = false
    ∧ run_chat "s" { template_bindings := [("skip_processing", "true")] }
        none (.ok ()) [.ok (none, "x")]
      = .ok { id := "s", status := .ok, errors := [], estimated_cost := none,
              token_usage := none, data := { response := some "x" } } :=
  ⟨rfl, by decide, rfl⟩

/-- Claim C2 (amended): the chat pipeline has no skip mechanism — its result
never depends on the input record beyond the rendered bindings (so a
`skip_processing` binding has no effect), and every chat output has status
Ok or Failed — and the serialized status enumeration has exactly the three
values "ok", "incomplete", "failed". -/
theorem chat_no_skip_status (id_ : JsonValue) (input input' : ChatInput)
    (model : Option LiteLlmModel) (render : Except String Unit)
    (attempts : List (Attempt (Option TokenUsage × JsonValue)))
    (s : WorkStatus) :
    run_chat id_ input model render attempts
        = run_chat id_ input' model render attempts
    ∧ (∀ out, run_chat id_ input model render attempts = .ok out →
        out.status = .ok ∨ out.status = .failed)
    ∧ s ∈ allWorkStatuses
    ∧ allWorkStatuses.map workStatusWire = ["ok", "incomplete", "failed"] := by
  refine ⟨?_, ?_, allWorkStatuses_complete s, rfl⟩
  · cases render <;> rfl
  · intro out hout
    cases render with
    | error e => simp [run_chat] at hout
    | ok u =>
      simp only [run_chat] at hout
      cases hres : resolveWithRetries RE_ATTEMPTS attempts with
      | none => rw [hres] at hout; simp at hout
      | some r =>
        rw [hres] at hout
        simp at hout
        rw [← hout]
        exact from_resolved_result_status id_ model r

/-- Witness for `chat_no_skip_status` at concrete inputs. -/
theorem chat_no_skip_status_witness :
    run_chat "w" { template_bindings := [("skip_processing", "true")] }
        none (.ok ()) [.transient "t", .ok (none, "y")]
      = run_chat "w" { template_bindings := [] }
        none (.ok ()) [.transient "t", .ok (none, "y")]
    ∧ (∀ out, run_chat "w" { template_bindings := [("skip_processing", "true")] }
          none (.ok ()) [.transient "t", .ok (none, "y")] = .ok out →
        out.status = .ok ∨ out.status = .failed)
    ∧ WorkStatus.incomplete ∈ allWorkStatuses
    ∧ allWorkStatuses.map workStatusWire = ["ok", "incomplete", "failed"] :=
  chat_no_skip_status "w" { template_bindings := [("skip_processing", "true")] }
    { template_bindings := [] } none (.ok ())
    [.transient "t", .ok (none, "y")] .incomplete

theorem countersUpdate_total {T : Type} (c : WorkOutputCounters)
    (item : WorkOutput T) :
    (countersUpdate c item).total_record_count = c.total_record_count + 1 := by
  unfold countersUpdate
  cases hc : item.estimated_cost <;> cases ht : item.token_usage <;>
    by_cases hs : item.status = WorkStatus.ok <;>
      by_cases he : item.errors.isEmpty = true <;>
        simp [hs, he, hc, ht]

theorem countersUpdate_failure {T : Type} (c : WorkOutputCounters)
    (item : WorkOutput T) :
    (countersUpdate c item).failure_count
      = c.failure_count + (if item.status ≠ .ok then 1 else 0) := by
  unfold countersUpdate
  cases hc : item.estimated_cost <;> cases ht : item.token_usage <;>
    by_cases hs : item.status = WorkStatus.ok <;>
      by_cases he : item.errors.isEmpty = true <;>
        simp [hs, he, hc, ht]

theorem countersUpdate_non_fatal {T : Type} (c : WorkOutputCounters)
    (item : WorkOutput T) :
    (countersUpdate c item).non_fatal_error_count
      = c.non_fatal_error_count
        + (if item.status = .ok then item.errors.length else 0) := by
  unfold countersUpdate
  cases hc : item.estimated_cost <;> cases ht : item.token_usage <;>
    by_cases hs : item.status = WorkStatus.ok <;>
      by_cases he : item.errors = [] <;>
        simp [hs, he, hc, ht, List.isEmpty_iff]

theorem foldl_counters_total {T : Type} (records : List (WorkOutput T)) :
    ∀ c, (records.foldl countersUpdate c).total_record_count
      = c.total_record_count + records.length := by
  induction records with
  | nil => intro c; simp
  | cons r rs ih =>
    intro c
    simp only [List.foldl_cons, List.length_cons]
    rw [ih, countersUpdate_total]
    omega

theorem foldl_counters_failure {T : Type} (records : List (WorkOutput T)) :
    ∀ c, (records.foldl countersUpdate c).failure_count
      = c.failure_count
        + (records.filter (fun r => decide (r.status ≠ WorkStatus.ok))).length := by
  induction records with
  | nil => intro c; simp
  | cons r rs ih =>
    intro c
    simp only [List.foldl_cons, List.filter_cons]
    by_cases hr : r.status = WorkStatus.ok <;>
      simp [hr, ih, countersUpdate_failure] <;> omega

theorem foldl_counters_non_fatal {T : Type} (records : List (WorkOutput T)) :
    ∀ c, (records.foldl countersUpdate c).non_fatal_error_count
      = c.non_fatal_error_count
        + ((records.filter (fun r => decide (r.status = WorkStatus.ok))).map
            (fun r => r.errors.length)).sum := by
  induction records with
  | nil => intro c; simp
  | cons r rs ih =>
    intro c
    simp only [List.foldl_cons, List.filter_cons]
    by_cases hr : r.status = WorkStatus.ok <;>
      simp [hr, ih, countersUpdate_non_fatal] <;> omega

/-- Claim C9: every record passing through the counter stream bumps
`total_record_count` by one; `failure_count` is bumped exactly when the
record's status is not `Ok` (so `Incomplete` records count as failures for
the guard); and `non_fatal_error_count` accumulates the length of the
errors list only for records with status `Ok` — over a whole stream the
totals are the record count, the count of non-`Ok` records, and the summed
error counts of the `Ok` records. -/
theorem counters_accounting {T : Type} (c : WorkOutputCounters)
    (item : WorkOutput T) (records : List (WorkOutput T)) :
    (countersUpdate c item).total_record_count = c.total_record_count + 1
    ∧ (countersUpdate c item).failure_count
        = c.failure_count + (if item.status ≠ .ok then 1 else 0)
    ∧ (countersUpdate c item).non_fatal_error_count
        = c.non_fatal_error_count
          + (if item.status = .ok then item.errors.length else 0)
    ∧ (records.foldl countersUpdate initialCounters).total_record_count
        = records.length
    ∧ (records.foldl countersUpdate initialCounters).failure_count
        = (records.filter (fun r => decide (r.status ≠ WorkStatus.ok))).length
    ∧ (records.foldl countersUpdate initialCounters).non_fatal_error_count
        = ((records.filter (fun r => decide (r.status = WorkStatus.ok))).map
            (fun r => r.errors.length)).sum := by
  refine ⟨countersUpdate_total c item, countersUpdate_failure c item,
    countersUpdate_non_fatal c item, ?_, ?_, ?_⟩
  · rw [foldl_counters_total records initialCounters]; simp [initialCounters]
  · rw [foldl_counters_failure records initialCounters]; simp [initialCounters]
  · rw [foldl_counters_non_fatal records initialCounters]; simp [initialCounters]

/-- Claim C5: after the output stream completes with counters
`total_record_count = T > 0` and `failure_count = F`, the guard in
`WorkItemCounterExt::finish` returns a fatal error iff
`F / T > allowed_failure_rate`; otherwise it returns success (after the
summary messages). -/
theorem failure_rate_guard (c : WorkOutputCounters) (opts : StreamOpts)
    (h : 0 < c.total_record_count) :
    (exceptIsError (counters_finish c opts).2 = true
      ↔ (c.failure_count : Rat) / (c.total_record_count : Rat)
          > opts.allowed_failure_rate)
    ∧ (¬ ((c.failure_count : Rat) / (c.total_record_count : Rat)
          > opts.allowed_failure_rate)
        → (counters_finish c opts).2 = .ok ()) := by
  by_cases hgt : (c.failure_count : Rat) / (c.total_record_count : Rat)
      > opts.allowed_failure_rate <;>
    simp [counters_finish, exceptIsError, hgt]

/-- Counters used by the witness of `failure_rate_guard`: 10 records, 3
failures. -/
def guardWitnessCounters : WorkOutputCounters :=
  { total_record_count := 10
    failure_count := 3
    non_fatal_error_count := 0
    cost_estimate := 0
    token_usage := { prompt_tokens := 0, completion_tokens := 0 } }

/-- Options used by the witness of `failure_rate_guard`: an allowed failure
rate of 20 percent. -/
def guardWitnessOpts : StreamOpts := { allowed_failure_rate := 1 / 5 }

/-- Witness for `failure_rate_guard` at concrete inputs. -/
theorem failure_rate_guard_witness :
    0 < guardWitnessCounters.total_record_count
    ∧ ((exceptIsError (counters_finish guardWitnessCounters guardWitnessOpts).2
          = true
        ↔ (guardWitnessCounters.failure_count : Rat)
            / (guardWitnessCounters.total_record_count : Rat)
            > guardWitnessOpts.allowed_failure_rate)
      ∧ (¬ ((guardWitnessCounters.failure_count : Rat)
            / (guardWitnessCounters.total_record_count : Rat)
            > guardWitnessOpts.allowed_failure_rate)
        → (counters_finish guardWitnessCounters guardWitnessOpts).2 = .ok ())) :=
  ⟨by decide, failure_rate_guard guardWitnessCounters guardWitnessOpts (by decide)⟩

theorem ocrAccumStep_pages (acc : OcrAccum) (p : OcrPageOutput) :
    (ocrAccumStep acc p).pages = acc.pages ++ [p.text] := by
  unfold ocrAccumStep
  cases hp : p.text <;> cases ha : p.analysis <;> cases hc : p.estimated_cost
    <;> cases hu : p.token_usage <;> simp [hp, ha, hc, hu]

theorem ocrAccum_pages (pages : List OcrPageOutput) :
    ∀ acc, (pages.foldl ocrAccumStep acc).pages
      = acc.pages ++ pages.map (fun p => p.text) := by
  induction pages with
  | nil => intro acc; simp
  | cons p ps ih =>
    intro acc
    simp only [List.foldl_cons, List.map_cons]
    rw [ih, ocrAccumStep_pages]
    simp

/-- Claim C4 (counterexample): a one-page document whose only page failed,
with a truncated page iterator.  The claim requires the output text to be
the marker join `**COULD_NOT_OCR_PAGE**` and (because of the truncation)
status `Incomplete`; the code emits no text at all and status `Failed`. -/
theorem ocr_join_status_counterexample :
    (ocr_file_inner "d" "doc.pdf" [] (.error "Only 1/2 pages processed") false
        [{ text := none, errors := ["page failed"], analysis := none,
           estimated_cost := none, token_usage := none }]).data.text = none
    ∧ (ocr_file_inner "d" "doc.pdf" [] (.error "Only 1/2 pages processed") false
        [{ text := none, errors := ["page failed"], analysis := none,
           estimated_cost := none, token_usage := none }]).status
      = WorkStatus.failed := by
  constructor <;> rfl

/-- Claim C4 (amended): with `G` the set of successfully OCRed pages of an
`M`-page document, the output status is Ok iff the iterator completed and
all pages succeeded, Incomplete iff at least one page succeeded and not
(complete and all succeeded), and Failed iff no page succeeded and not
(complete and all succeeded — so an empty complete document is Ok, and a
truncated document with no good pages is Failed, not Incomplete); the
output text is the page texts joined with a blank line, failed pages
replaced by the `**COULD_NOT_OCR_PAGE**` marker, but only when at least one
page succeeded — with no good pages the text is absent. -/
theorem ocr_join_status (id_ path : String) (warnings : List String)
    (check : Except String Unit) (env : Bool)
    (pages : List OcrPageOutput) :
    ((ocr_file_inner id_ path warnings check env pages).status = .ok
      ↔ (exceptIsOk check = true ∧ goodPageCount pages = pages.length))
    ∧ ((ocr_file_inner id_ path warnings check env pages).status = .incomplete
      ↔ (0 < goodPageCount pages
          ∧ ¬(exceptIsOk check = true ∧ goodPageCount pages = pages.length)))
    ∧ ((ocr_file_inner id_ path warnings check env pages).status = .failed
      ↔ (goodPageCount pages = 0
          ∧ ¬(exceptIsOk check = true ∧ goodPageCount pages = pages.length)))
    ∧ (ocr_file_inner id_ path warnings check env pages).data.text
      = (if 0 < goodPageCount pages then some (joinedPageText pages)
         else none) := by
  have hpages : (pages.foldl ocrAccumStep
      { errors := warnings
        pages := []
        analysis := OcrAnalysis.default
        analysis_present := false
        estimated_cost := 0
        token_usage := { prompt_tokens := 0, completion_tokens := 0 } }).pages
      = pages.map (fun p => p.text) := by
    rw [ocrAccum_pages]
    rfl
  have hlen : (pages.map (fun p => p.text)).length = pages.length :=
    List.length_map pages (fun p => p.text)
  have hle : ((pages.map (fun p => p.text)).filter
      (fun p => p.isSome)).length ≤ pages.length := by
    calc ((pages.map (fun p => p.text)).filter (fun p => p.isSome)).length
        ≤ (pages.map (fun p => p.text)).length := List.length_filter_le _ _
      _ = pages.length := hlen
  simp only [ocr_file_inner, hpages, goodPageCount, pageTexts, joinedPageText,
    hlen]
  generalize ((pages.map (fun p => p.text)).filter
    (fun p => p.isSome)).length = G at hle ⊢
  generalize pages.length = M at hle ⊢
  by_cases hok : exceptIsOk check = true ∧ G = M
  · simp [hok]
  · by_cases h3 : 0 < G
    · simp [hok, h3]
      omega
    · simp [hok, h3]
      omega

theorem validateEntry_some (path : String) (i sub0 t : Nat)
    (warnings : List String) :
    validateEntry path i sub0 (some t) warnings
      = if ambiguousSubfileType t = true
        then .error (mkAmbiguousMsg path i sub0 t)
        else .ok warnings := by
  unfold validateEntry ambiguousSubfileType
  by_cases c1 : t &&& REDUCED_RESOLUTION ≠ 0 <;>
    by_cases c2 : t &&& TRANSPARENCY_MASK ≠ 0 <;>
      by_cases c3 : t &&& DNG_BITS ≠ 0 <;>
        by_cases c4 : t = 0 ∨ t &&& SINGLE_PAGE ≠ 0 <;>
          simp [c1, c2, c3, c4] <;> simp_all

theorem validate_loop_cons (path : String) (i sub0 : Nat)
    (entry : Option Nat) (rest : List (Option Nat)) (warnings : List String) :
    validate_subifds_loop path i (entry :: rest) sub0 warnings
      = match validateEntry path i sub0 entry warnings with
        | .error e => .error e
        | .ok w2 => validate_subifds_loop path i rest (sub0 + 1) w2 := rfl

theorem validate_loop_error_of_mem (path : String) (i : Nat)
    (subifds : List (Option Nat)) :
    ∀ (sub0 : Nat) (warnings : List String) (t : Nat),
      some t ∈ subifds → ambiguousSubfileType t = true →
      ∃ e, validate_subifds_loop path i subifds sub0 warnings = .error e := by
  induction subifds with
  | nil => intro sub0 warnings t hmem; simp at hmem
  | cons entry rest ih =>
    intro sub0 warnings t hmem hamb
    rw [List.mem_cons] at hmem
    cases hmem with
    | inl hhead =>
      subst hhead
      refine ⟨mkAmbiguousMsg path i sub0 t, ?_⟩
      rw [validate_loop_cons, validateEntry_some, if_pos hamb]
    | inr htail =>
      rw [validate_loop_cons]
      cases hve : validateEntry path i sub0 entry warnings with
      | error e => exact ⟨e, rfl⟩
      | ok w2 =>
        obtain ⟨e, he⟩ := ih (sub0 + 1) w2 t htail hamb
        exact ⟨e, he⟩

theorem validate_loop_error_names_indices (path : String) (i : Nat)
    (subifds : List (Option Nat)) :
    ∀ (sub0 : Nat) (warnings : List String) (e : String),
      validate_subifds_loop path i subifds sub0 warnings = .error e →
      ∃ j t, subifds.get? j = some (some t)
        ∧ ambiguousSubfileType t = true
        ∧ e = mkAmbiguousMsg path i (sub0 + j) t := by
  induction subifds with
  | nil => intro sub0 warnings e he; simp [validate_subifds_loop] at he
  | cons entry rest ih =>
    intro sub0 warnings e he
    rw [validate_loop_cons] at he
    cases entry with
    | none =>
      simp only [validateEntry] at he
      obtain ⟨j, t, hj, hamb, hmsg⟩ := ih (sub0 + 1) _ e he
      refine ⟨j + 1, t, by simpa using hj, hamb, ?_⟩
      rw [hmsg]
      have harith : sub0 + 1 + j = sub0 + (j + 1) := by omega
      rw [harith]
    | some t0 =>
      rw [validateEntry_some] at he
      by_cases hamb : ambiguousSubfileType t0 = true
      · rw [if_pos hamb] at he
        refine ⟨0, t0, rfl, hamb, ?_⟩
        cases he
        rfl
      · rw [if_neg hamb] at he
        obtain ⟨j, t, hj, hambt, hmsg⟩ := ih (sub0 + 1) _ e he
        refine ⟨j + 1, t, by simpa using hj, hambt, ?_⟩
        rw [hmsg]
        have harith : sub0 + 1 + j = sub0 + (j + 1) := by omega
        rw [harith]

theorem validate_loop_ok_of_none (path : String) (i : Nat)
    (subifds : List (Option Nat)) :
    ∀ (sub0 : Nat) (warnings : List String),
      (∀ t, some t ∈ subifds → ambiguousSubfileType t = false) →
      ∃ w2, validate_subifds_loop path i subifds sub0 warnings = .ok w2 := by
  induction subifds with
  | nil => intro sub0 warnings _; exact ⟨warnings, rfl⟩
  | cons entry rest ih =>
    intro sub0 warnings hno
    rw [validate_loop_cons]
    cases entry with
    | none =>
      simp only [validateEntry]
      exact ih (sub0 + 1) _ (fun t ht => hno t (List.mem_cons_of_mem _ ht))
    | some t0 =>
      rw [validateEntry_some,
        if_neg (by simp [hno t0 (List.mem_cons_self _ _)])]
      exact ih (sub0 + 1) warnings (fun t ht => hno t (List.mem_cons_of_mem _ ht))

theorem process_loop_cons_none (path : String) (ifd : TiffIfd)
    (rest : List TiffIfd) (pc ii : Nat) (pages warnings : List String) :
    process_tiff_loop path none (ifd :: rest) pc ii pages warnings
      = match validate_subifds path ii ifd.subifds warnings with
        | .error e => .error e
        | .ok w2 =>
          process_tiff_loop path none rest (pc + 1) (ii + 1)
            (pages ++ [ifd.page]) w2 := rfl

theorem process_loop_error_of_ambiguous (path : String)
    (ifds : List TiffIfd) :
    ∀ (pc ii : Nat) (pages warnings : List String),
      (∃ ifd ∈ ifds, ∃ t, some t ∈ ifd.subifds
        ∧ ambiguousSubfileType t = true) →
      ∃ e, process_tiff_loop path none ifds pc ii pages warnings = .error e := by
  induction ifds with
  | nil => intro pc ii pages warnings h; simp at h
  | cons ifd rest ih =>
    intro pc ii pages warnings h
    rw [process_loop_cons_none]
    cases hve : validate_subifds path ii ifd.subifds warnings with
    | error e => exact ⟨e, rfl⟩
    | ok w2 =>
      obtain ⟨ifd0, hifd0, t, htmem, hamb⟩ := h
      rw [List.mem_cons] at hifd0
      cases hifd0 with
      | inl hhead =>
        subst hhead
        obtain ⟨e, he⟩ := validate_loop_error_of_mem path ii ifd0.subifds 0
          warnings t htmem hamb
        rw [show validate_subifds path ii ifd0.subifds warnings
          = validate_subifds_loop path ii ifd0.subifds 0 warnings from rfl,
          he] at hve
        cases hve
      | inr htail =>
        obtain ⟨e, he⟩ := ih (pc + 1) (ii + 1) (pages ++ [ifd.page]) w2
          ⟨ifd0, htail, t, htmem, hamb⟩
        exact ⟨e, he⟩

/-- Claim C6 (counterexample): NewSubfileType 32 (bit 5) is not one of the
safe-to-skip cases (no reduced-resolution, transparency-mask or DNG bit),
yet a TIFF whose SubIFD carries it is processed without error and its page
is yielded. -/
theorem subifd_unrecognized_counterexample :
    (Nat.land 32 REDUCED_RESOLUTION = 0 ∧ Nat.land 32 TRANSPARENCY_MASK = 0
      ∧ Nat.land 32 DNG_BITS = 0)
    ∧ process_tiff_sync "f.tiff" none [{ subifds := [some 32], page := "p0" }]
        = .ok (["p0"], 1, [])
    ∧ from_tiff "f.tiff"
        { rasterize := false, rasterize_dpi := 300, max_pages := none }
        [{ subifds := [some 32], page := "p0" }]
      = .ok { has_tmpdir := true, mime_type := "image/png",
              dir_iter := ["p0"], total_pages := 1, max_pages := none,
              warnings := [] } := by
  refine ⟨by decide, ?_, ?_⟩ <;> rfl

/-- Claim C6 (amended): SubIFD validation fails iff some SubIFD has an
ambiguous `NewSubfileType` — one with no safe-to-skip bit (0x1, 0x4, 0x8,
0x10, 0x10000) that is zero or carries the single-page bit 0x2; the error
names the IFD and SubIFD indices and the value; when an IFD inside the
processed window is ambiguous, `process_tiff_sync` (and hence TIFF
`PageIter` construction) fails, so no pages are yielded.  Zero and 0x2 are
ambiguous as the claim says, but a value with only unrecognized bits (such
as 32) is accepted silently. -/
theorem subifd_validation (path : String) (i : Nat)
    (warnings : List String) (subifds : List (Option Nat))
    (ifds : List TiffIfd) :
    ((∃ e, validate_subifds path i subifds warnings = .error e)
      ↔ (∃ t, some t ∈ subifds ∧ ambiguousSubfileType t = true))
    ∧ (∀ e, validate_subifds path i subifds warnings = .error e →
        ∃ j t, subifds.get? j = some (some t)
          ∧ ambiguousSubfileType t = true
          ∧ e = mkAmbiguousMsg path i j t)
    ∧ ((∃ ifd ∈ ifds, ∃ t, some t ∈ ifd.subifds
          ∧ ambiguousSubfileType t = true)
        → ∃ e, process_tiff_sync path none ifds = .error e
          ∧ from_tiff path
              { rasterize := false, rasterize_dpi := 300, max_pages := none }
              ifds
            = .error e)
    ∧ ambiguousSubfileType 0 = true
    ∧ ambiguousSubfileType 2 = true
    ∧ ambiguousSubfileType 32 = false := by
  refine ⟨⟨?_, ?_⟩, ?_, ?_, by decide, by decide, by decide⟩
  · rintro ⟨e, he⟩
    obtain ⟨j, t, hj, hamb, _⟩ :=
      validate_loop_error_names_indices path i subifds 0 warnings e he
    exact ⟨t, List.get?_mem hj, hamb⟩
  · rintro ⟨t, hmem, hamb⟩
    exact validate_loop_error_of_mem path i subifds 0 warnings t hmem hamb
  · intro e he
    obtain ⟨j, t, hj, hamb, hmsg⟩ :=
      validate_loop_error_names_indices path i subifds 0 warnings e he
    exact ⟨j, t, hj, hamb, by simpa using hmsg⟩
  · intro h
    obtain ⟨e, he⟩ := process_loop_error_of_ambiguous path ifds 0 0 [] [] h
    refine ⟨e, he, ?_⟩
    simp only [from_tiff, process_tiff_sync] at *
    rw [he]

/-- Witness for `subifd_validation` at concrete inputs: a TIFF whose single
IFD has a SubIFD with NewSubfileType 0 fails to process. -/
theorem subifd_validation_witness :
    ∃ e, process_tiff_sync "g.tiff" none
        [{ subifds := [some 0], page := "q0" }] = .error e
      ∧ from_tiff "g.tiff"
          { rasterize := false, rasterize_dpi := 300, max_pages := none }
          [{ subifds := [some 0], page := "q0" }]
        = .error e :=
  (subifd_validation "g.tiff" 0 [] [some 0]
      [{ subifds := [some 0], page := "q0" }]).2.2.1
    ⟨{ subifds := [some 0], page := "q0" }, by simp, 0, by simp, by decide⟩

/-- Claim C7: for a work queue with concurrency limit `N` and an input of
`M > 2N` items, in every reachable state at most `N` work_fn invocations
are in flight, at most `N` items are queued in the channel, and at most
`2N` items are resident between producer and worker. -/
theorem work_queue_backpressure (N M : Nat) (s : QueueState)
    (hM : M > 2 * N) (hreach : QueueReachable N M s) :
    s.in_flight ≤ N ∧ s.queued ≤ N ∧ s.queued + s.in_flight ≤ 2 * N := by
  clear hM
  induction hreach with
  | init => simp
  | step hr hstep ih =>
    cases hstep with
    | submit p q f c hq =>
      obtain ⟨ih1, ih2, ih3⟩ := ih
      simp_all
      omega
    | start p q f c hf =>
      obtain ⟨ih1, ih2, ih3⟩ := ih
      simp_all
      omega
    | finish p q f c =>
      obtain ⟨ih1, ih2, ih3⟩ := ih
      simp_all
      omega

/-- Witness for `work_queue_backpressure`: the state after one submission
with `N = 1`, `M = 3`. -/
theorem work_queue_backpressure_witness :
    3 > 2 * 1
    ∧ ((⟨2, 1, 0, 0⟩ : QueueState).in_flight ≤ 1
      ∧ (⟨2, 1, 0, 0⟩ : QueueState).queued ≤ 1
      ∧ (⟨2, 1, 0, 0⟩ : QueueState).queued
          + (⟨2, 1, 0, 0⟩ : QueueState).in_flight ≤ 2 * 1) :=
  ⟨by decide,
    work_queue_backpressure 1 3 ⟨2, 1, 0, 0⟩ (by decide)
      (.step .init (.submit 2 0 0 0 (by decide)))⟩

/-- Claim C8 (counterexample): the trace of a `run_chat_inner` attempt is
exactly [attempt-counter increment, driver call]: the driver call is not
preceded by any rate-limiter acquisition, and no token is ever acquired. -/
theorem rate_limit_chat_counterexample :
    (run_chat_inner (.err true)).2
      = [ChatEvent.attemptIncrement, ChatEvent.driverCall]
    ∧ (run_chat_inner (.err true)).2.count ChatEvent.rateLimitAcquire = 0
    ∧ (run_chat_inner (.err true)).2.count ChatEvent.driverCall = 1 := by
  refine ⟨rfl, by decide, by decide⟩

theorem run_chat_inner_events (outcome : DriverOutcome) :
    (run_chat_inner outcome).2
      = [ChatEvent.attemptIncrement, ChatEvent.driverCall] := by
  cases outcome with
  | err t => cases t <;> rfl
  | timeout => rfl
  | badResponseJson => rfl
  | response hc cf content cij sv usage =>
    cases hc <;> cases cf <;> cases cij <;> cases sv <;> rfl

/-- Claim C8 (amended): `run_chat_inner` in this code base performs exactly
one driver call per attempt and never acquires a rate-limit token: its chat
`LlmOpts` carries no rate limit, and no limiter is consulted anywhere in
the chat path (the tree's only rate limiter, built by
`RateLimit::to_rate_limiter`, is awaited by the Textract OCR engine). -/
theorem run_chat_inner_no_rate_limit (outcome : DriverOutcome) :
    (run_chat_inner outcome).2.count ChatEvent.rateLimitAcquire = 0
    ∧ (run_chat_inner outcome).2.count ChatEvent.driverCall = 1
    ∧ (run_chat_inner outcome).2
      = [ChatEvent.attemptIncrement, ChatEvent.driverCall] := by
  refine ⟨?_, ?_, run_chat_inner_events outcome⟩ <;>
    rw [run_chat_inner_events outcome] <;> decide

/-- Claim C10: `PageIter::next` deletes the file it has just read only when
the iterator owns a temporary directory; for a single-image input, where no
temporary directory is created, `from_path` wraps the caller's original
file into a one-page iterator whose `next` reads and returns that file but
leaves the file system untouched. -/
theorem page_iter_frame (fs : FileSys) (path mime : String)
    (bytes : List Nat) (opts : PageIterOptions) (tiffs : List TiffIfd)
    (pdf_result : Except String PageIterState)
    (hmime : SUPPORTED_IMAGE_TYPES.contains mime = true)
    (hfs : fs path = some bytes) :
    from_path path mime opts tiffs pdf_result
      = .ok (from_path_single_image path mime opts)
    ∧ (from_path_single_image path mime opts).has_tmpdir = false
    ∧ page_iter_next fs (from_path_single_image path mime opts)
      = (some (.ok { mime_type := mime, data := bytes }),
         { from_path_single_image path mime opts with dir_iter := [] }, fs)
    ∧ (page_iter_next fs
        { from_path_single_image path mime opts with dir_iter := [] }).1
      = none
    ∧ (∀ st : PageIterState, st.has_tmpdir = false →
        (page_iter_next fs st).2.2 = fs)
    ∧ (∀ st : PageIterState, st.has_tmpdir = true →
        ∀ p rest, st.dir_iter = p :: rest →
        ∀ b, fs p = some b → (page_iter_next fs st).2.2 p = none) := by
  refine ⟨?_, rfl, ?_, rfl, ?_, ?_⟩
  · unfold from_path
    rw [if_pos hmime]
  · simp [page_iter_next, from_path_single_image, hfs]
  · intro st hst
    unfold page_iter_next
    cases hd : st.dir_iter with
    | nil => rfl
    | cons p rest =>
      cases hfp : fs p with
      | none => simp [hfp]
      | some b => simp [hfp, hst]
  · intro st hst p rest hd b hfp
    unfold page_iter_next
    rw [hd]
    simp [hfp, hst]

/-- Witness for `page_iter_frame` at a concrete file system and PNG
input. -/
theorem page_iter_frame_witness :
    SUPPORTED_IMAGE_TYPES.contains "image/png" = true
    ∧ (fun p => if p = "in.png" then some [137, 80] else none) "in.png"
        = some [137, 80]
    ∧ (from_path_single_image "in.png" "image/png"
        { rasterize := false, rasterize_dpi := 300, max_pages := none }
      ).has_tmpdir = false :=
  ⟨by decide, by decide,
    (page_iter_frame (fun p => if p = "in.png" then some [137, 80] else none)
      "in.png" "image/png" [137, 80]
      { rasterize := false, rasterize_dpi := 300, max_pages := none }
      [] (.error "no pdf") (by decide) (by decide)).2.1⟩

end PromptScaler
